import Mathlib

/-!
Verification of the tenacity-examples repository: shallow embedding of the
Slack-webhook retry variants (slack_simple_rq.py, slack_retries_v0..v3.py,
retries_slack.py) and of the relevant tenacity machinery
(stop_after_attempt, wait_fixed, wait_chain, wait_exponential,
retry_if_exception_type, reraise), plus theorems settling the spec claims.

Conventions of the embedding:
- An HTTP interaction is abstracted as a function from the attempt number
  (1-based, as in tenacity's retry_state.attempt_number) to an `HttpResult`:
  either a `Response` (status code, optional integer Retry-After header,
  body text, reason phrase) or a connection-level transport exception.
- Python exceptions become the `PyExc` type; fallible code returns
  `Except PyExc`.
- The Python dict used as the message payload becomes an association list
  (`Dict`) with in-place key assignment modelled by `dictSet`; the final
  value of the caller's dict is threaded through and returned.
- The mutable one-shot wait override (`self.wait['send_msg_slack']`) becomes
  an `Option Nat` state component threaded through the retry loop.
-/

/-- A raw HTTP response: status code, optional integer `Retry-After` header,
body text and reason phrase (`msg_rq.status_code`, `msg_rq.headers`,
`msg_rq.text`, `msg_rq.reason`). -/
structure Response where
  status : Nat
  retryAfter : Option Nat
  body : String
  reason : String
deriving DecidableEq, Repr

/-- Result of one `requests.post` call: either a response or a
connection-level exception raised by the transport itself. -/
inductive HttpResult
  | resp : Response → HttpResult
  | transportError : HttpResult
deriving DecidableEq, Repr

/-- The status code of an `HttpResult` (0 for a transport failure, which
carries no status). -/
def statusOf : HttpResult → Nat
  | HttpResult.resp r => r.status
  | HttpResult.transportError => 0

/-- Python exceptions raised by the variants: `SendMsgError` (the custom
retryable-failure exception, carrying its message), `requests.HTTPError`
from `raise_for_status` (carrying the status), and connection-level
transport exceptions. -/
inductive PyExc
  | sendMsgError : String → PyExc
  | httpError : Nat → PyExc
  | transportError : PyExc
deriving DecidableEq, Repr

/-- `requests.Response.raise_for_status`: raises `HTTPError` exactly for
status codes in [400, 600), otherwise returns `None`. -/
def raise_for_status (s : Nat) : Option PyExc :=
  if 400 ≤ s ∧ s < 600 then some (PyExc.httpError s) else none

theorem raise_for_status_err {s : Nat} (h1 : 400 ≤ s) (h2 : s < 600) :
    raise_for_status s = some (PyExc.httpError s) := by
  unfold raise_for_status
  rw [if_pos ⟨h1, h2⟩]

theorem raise_for_status_ok {s : Nat} (h : s < 400) :
    raise_for_status s = none := by
  unfold raise_for_status
  rw [if_neg (by omega)]

/-- The message payload dict, as an association list from keys to values in
insertion order. -/
abbrev Dict : Type := List (String × String)

/-- Python dict assignment `d[k] = v`: replaces the value of an existing key
in place, or appends the binding if the key is absent. -/
def dictSet : Dict → String → String → Dict
  | [], k, v => [(k, v)]
  | (k', v') :: rest, k, v =>
    if k' = k then (k, v) :: rest else (k', v') :: dictSet rest k v

/-- Python dict lookup `d.get(k)`. -/
def dictGet : Dict → String → Option String
  | [], _ => none
  | (k', v') :: rest, k => if k' = k then some v' else dictGet rest k

theorem dictGet_dictSet_same (d : Dict) (k v : String) :
    dictGet (dictSet d k v) k = some v := by
  induction d with
  | nil => simp [dictSet, dictGet]
  | cons p rest ih =>
    rcases p with ⟨k', v'⟩
    by_cases h : k' = k
    · subst h
      simp [dictSet, dictGet]
    · simp [dictSet, dictGet, h, ih]

theorem dictGet_dictSet_other (d : Dict) (k v k2 : String) (h : k2 ≠ k) :
    dictGet (dictSet d k v) k2 = dictGet d k2 := by
  have hne : ¬ (k = k2) := fun hh => h hh.symm
  induction d with
  | nil => simp [dictSet, dictGet, hne]
  | cons p rest ih =>
    rcases p with ⟨k', v'⟩
    by_cases hk : k' = k
    · subst hk
      simp [dictSet, dictGet, hne]
    · simp [dictSet, dictGet, hk, ih]

/-- tenacity `wait_fixed(d)`: a constant wait, ignoring the attempt number. -/
def wait_fixed (d : Nat) : Nat → Nat := fun _ => d

/-- tenacity `wait_chain(*strategies)`: selects the strategy indexed by the
attempt number (clamped to the list), then applies it. -/
def wait_chain (strategies : List (Nat → Nat)) (n : Nat) : Nat :=
  (strategies.getD (min (max n 1) strategies.length - 1) (wait_fixed 0)) n

/-- tenacity `wait_exponential(multiplier, min=mn, max=mx)`: the delay after
the `n`-th attempt is `multiplier * 2 ^ (n - 1)` clamped into `[mn, mx]`
(the source computes `max(max(0, min), min(result, max))`). -/
def wait_exponential (multiplier mn mx : Nat) (n : Nat) : Nat :=
  max (max 0 mn) (min (multiplier * 2 ^ (n - 1)) mx)

/-- `default_wait` of retries_slack.py: a chain of two 1-second waits, two
3-second waits, then 6 seconds. -/
def default_wait (n : Nat) : Nat :=
  wait_chain
    [wait_fixed 1, wait_fixed 1, wait_fixed 3, wait_fixed 3, wait_fixed 6] n

/-- `default_wait` of slack_retries_v3.py:
`wait_exponential(multiplier=1, min=0, max=10)`. -/
def default_wait_v3 (n : Nat) : Nat :=
  wait_exponential 1 0 10 n

/-- `custom_wait` of retries_slack.py: the per-object one-shot override slot
(`self.wait['send_msg_slack']`, here an `Option Nat`) is consumed if set
(cleared and its value returned), otherwise `default_wait` applies.  The
returned pair is (state of the slot after the call, chosen delay). -/
def custom_wait : Option Nat → Nat → Option Nat × Nat
  | none, n => (none, default_wait n)
  | some w, _ => (none, w)

/-- `custom_wait` of slack_retries_v3.py: same consumption discipline, with
the exponential default; the state also carries the payload dict, which the
wait function does not touch. -/
def custom_wait_v3 : Dict × Option Nat → Nat → (Dict × Option Nat) × Nat
  | (d, none), n => ((d, none), default_wait_v3 n)
  | (d, some w), _ => ((d, none), w)

/-- Terminal result of a decorated call: a returned value, an exception
propagated as-is (non-retryable, or retries exhausted with `reraise=True`),
or tenacity's `RetryError` wrapping the last exception (retries exhausted
without `reraise`). -/
inductive RunResult (α : Type)
  | success : α → RunResult α
  | raised : PyExc → RunResult α
  | retryError : PyExc → RunResult α
deriving DecidableEq, Repr

/-- The observable trace of one decorated call: final threaded state, the
outcome of each attempt in order, the delay slept after each failed
non-final attempt, and the terminal result (mirroring tenacity's per-run
attempt statistics). -/
structure RunOut (σ α : Type) where
  finalState : σ
  outcomes : List (Except PyExc α)
  delays : List Nat
  result : RunResult α

/-- The tenacity attempt loop.  `fuel` is the number of retries still
allowed after the current attempt (`stop_after_attempt(N)` starts it at
`N - 1`), `n` is the 1-based attempt number.  After a failed attempt the
loop first consults the retry predicate (a non-retryable exception
propagates at once), then the stop condition (raising the exception itself
under `reraise`, else `RetryError`), else computes the wait, sleeps and
retries. -/
def tenacityAux {σ α : Type} (pred : PyExc → Bool) (reraise : Bool)
    (wait : σ → Nat → σ × Nat)
    (body : σ → HttpResult → σ × Except PyExc α)
    (resp : Nat → HttpResult) :
    Nat → Nat → σ → RunOut σ α
  | 0, n, st =>
    match body st (resp n) with
    | (st1, Except.ok a) => ⟨st1, [Except.ok a], [], RunResult.success a⟩
    | (st1, Except.error e) =>
      if pred e then
        ⟨st1, [Except.error e], [],
          if reraise then RunResult.raised e else RunResult.retryError e⟩
      else ⟨st1, [Except.error e], [], RunResult.raised e⟩
  | fuel+1, n, st =>
    match body st (resp n) with
    | (st1, Except.ok a) => ⟨st1, [Except.ok a], [], RunResult.success a⟩
    | (st1, Except.error e) =>
      if pred e then
        ⟨(tenacityAux pred reraise wait body resp fuel (n+1) (wait st1 n).1).finalState,
         Except.error e ::
           (tenacityAux pred reraise wait body resp fuel (n+1) (wait st1 n).1).outcomes,
         (wait st1 n).2 ::
           (tenacityAux pred reraise wait body resp fuel (n+1) (wait st1 n).1).delays,
         (tenacityAux pred reraise wait body resp fuel (n+1) (wait st1 n).1).result⟩
      else ⟨st1, [Except.error e], [], RunResult.raised e⟩

/-- One decorated call under `retry(stop=stop_after_attempt(maxAttempts), ...)`,
starting at attempt 1 in state `st`. -/
def tenacityRun {σ α : Type} (maxAttempts : Nat) (pred : PyExc → Bool)
    (reraise : Bool) (wait : σ → Nat → σ × Nat)
    (body : σ → HttpResult → σ × Except PyExc α)
    (resp : Nat → HttpResult) (st : σ) : RunOut σ α :=
  tenacityAux pred reraise wait body resp (maxAttempts - 1) 1 st

theorem tenacityAux_ok {σ α : Type} (pred : PyExc → Bool) (reraise : Bool)
    (wait : σ → Nat → σ × Nat) (body : σ → HttpResult → σ × Except PyExc α)
    (resp : Nat → HttpResult) (fuel n : Nat) (st st1 : σ) (a : α)
    (h : body st (resp n) = (st1, Except.ok a)) :
    tenacityAux pred reraise wait body resp fuel n st =
      ⟨st1, [Except.ok a], [], RunResult.success a⟩ := by
  cases fuel <;> simp [tenacityAux, h]

theorem tenacityAux_err_stop {σ α : Type} (pred : PyExc → Bool) (reraise : Bool)
    (wait : σ → Nat → σ × Nat) (body : σ → HttpResult → σ × Except PyExc α)
    (resp : Nat → HttpResult) (n : Nat) (st st1 : σ) (e : PyExc)
    (h : body st (resp n) = (st1, Except.error e)) (hp : pred e = true) :
    tenacityAux pred reraise wait body resp 0 n st =
      ⟨st1, [Except.error e], [],
        if reraise then RunResult.raised e else RunResult.retryError e⟩ := by
  simp [tenacityAux, h, hp]

theorem tenacityAux_err_fatal {σ α : Type} (pred : PyExc → Bool) (reraise : Bool)
    (wait : σ → Nat → σ × Nat) (body : σ → HttpResult → σ × Except PyExc α)
    (resp : Nat → HttpResult) (fuel n : Nat) (st st1 : σ) (e : PyExc)
    (h : body st (resp n) = (st1, Except.error e)) (hp : pred e = false) :
    tenacityAux pred reraise wait body resp fuel n st =
      ⟨st1, [Except.error e], [], RunResult.raised e⟩ := by
  cases fuel <;> simp [tenacityAux, h, hp]

theorem tenacityAux_err_cont {σ α : Type} (pred : PyExc → Bool) (reraise : Bool)
    (wait : σ → Nat → σ × Nat) (body : σ → HttpResult → σ × Except PyExc α)
    (resp : Nat → HttpResult) (fuel n : Nat) (st st1 : σ) (e : PyExc)
    (h : body st (resp n) = (st1, Except.error e)) (hp : pred e = true) :
    tenacityAux pred reraise wait body resp (fuel+1) n st =
      ⟨(tenacityAux pred reraise wait body resp fuel (n+1) (wait st1 n).1).finalState,
       Except.error e ::
         (tenacityAux pred reraise wait body resp fuel (n+1) (wait st1 n).1).outcomes,
       (wait st1 n).2 ::
         (tenacityAux pred reraise wait body resp fuel (n+1) (wait st1 n).1).delays,
       (tenacityAux pred reraise wait body resp fuel (n+1) (wait st1 n).1).result⟩ := by
  simp [tenacityAux, h, hp]

theorem tenacityAux_length_le {σ α : Type} (pred : PyExc → Bool) (reraise : Bool)
    (wait : σ → Nat → σ × Nat) (body : σ → HttpResult → σ × Except PyExc α)
    (resp : Nat → HttpResult) :
    ∀ (fuel n : Nat) (st : σ),
      (tenacityAux pred reraise wait body resp fuel n st).outcomes.length ≤ fuel + 1 := by
  intro fuel
  induction fuel with
  | zero =>
    intro n st
    rcases hb : body st (resp n) with ⟨st1, out⟩
    cases out with
    | ok a =>
      rw [tenacityAux_ok pred reraise wait body resp _ _ _ _ _ hb]
      simp
    | error e =>
      cases hp : pred e with
      | true =>
        rw [tenacityAux_err_stop pred reraise wait body resp _ _ _ _ hb hp]
        simp
      | false =>
        rw [tenacityAux_err_fatal pred reraise wait body resp _ _ _ _ _ hb hp]
        simp
  | succ fuel ih =>
    intro n st
    rcases hb : body st (resp n) with ⟨st1, out⟩
    cases out with
    | ok a =>
      rw [tenacityAux_ok pred reraise wait body resp _ _ _ _ _ hb]
      simp
    | error e =>
      cases hp : pred e with
      | true =>
        rw [tenacityAux_err_cont pred reraise wait body resp _ _ _ _ _ hb hp]
        have := ih (n+1) (wait st1 n).1
        simp only [List.length_cons]
        omega
      | false =>
        rw [tenacityAux_err_fatal pred reraise wait body resp _ _ _ _ _ hb hp]
        simp

theorem getLast?_cons_cons {α : Type} (a b : α) (l : List α) :
    (a :: b :: l).getLast? = (b :: l).getLast? := rfl

/-- If every attempt raises an exception accepted by the retry predicate,
the loop consumes exactly its whole attempt budget and terminates with the
exception of the last attempt (re-raised as-is under `reraise`, wrapped in
`RetryError` otherwise). -/
theorem tenacityAux_all_fail {σ α : Type} (pred : PyExc → Bool) (reraise : Bool)
    (wait : σ → Nat → σ × Nat) (body : σ → HttpResult → σ × Except PyExc α)
    (resp : Nat → HttpResult)
    (h : ∀ (n : Nat) (st : σ), ∃ e, (body st (resp n)).2 = Except.error e ∧ pred e = true) :
    ∀ (fuel n : Nat) (st : σ),
      (tenacityAux pred reraise wait body resp fuel n st).outcomes.length = fuel + 1 ∧
      ∃ e, (tenacityAux pred reraise wait body resp fuel n st).result =
              (if reraise then RunResult.raised e else RunResult.retryError e) ∧
           (tenacityAux pred reraise wait body resp fuel n st).outcomes.getLast? =
              some (Except.error e) := by
  intro fuel
  induction fuel with
  | zero =>
    intro n st
    obtain ⟨e, he, hp⟩ := h n st
    rcases hb : body st (resp n) with ⟨st1, out⟩
    rw [hb] at he
    simp only at he
    subst he
    rw [tenacityAux_err_stop pred reraise wait body resp _ _ _ _ hb hp]
    exact ⟨rfl, e, rfl, rfl⟩
  | succ fuel ih =>
    intro n st
    obtain ⟨e, he, hp⟩ := h n st
    rcases hb : body st (resp n) with ⟨st1, out⟩
    rw [hb] at he
    simp only at he
    subst he
    rw [tenacityAux_err_cont pred reraise wait body resp _ _ _ _ _ hb hp]
    obtain ⟨hlen, e', hres, hlast⟩ := ih (n+1) (wait st1 n).1
    refine ⟨by simp [hlen], e', hres, ?_⟩
    rcases houts : (tenacityAux pred reraise wait body resp fuel (n+1) (wait st1 n).1).outcomes with
      _ | ⟨x, xs⟩
    · rw [houts] at hlen
      simp at hlen
    · rw [houts] at hlast
      simp only [houts]
      rw [getLast?_cons_cons]
      exact hlast

/-- The exception of the last attempt, when the last attempt failed. -/
def lastErr {α : Type} (l : List (Except PyExc α)) : Option PyExc :=
  match l.getLast? with
  | some (Except.error e) => some e
  | _ => none

/-- The terminal error a run must produce when its last recorded attempt
failed: the exception itself under `reraise=True`, tenacity's `RetryError`
around it otherwise; `none` when the last attempt did not fail. -/
def terminalOf {σ α : Type} (reraise : Bool) (o : RunOut σ α) : Option (RunResult α) :=
  match lastErr o.outcomes with
  | some e => some (if reraise then RunResult.raised e else RunResult.retryError e)
  | none => none

/-- tenacity `retry_if_exception_type(SendMsgError)` (slack_retries_v2/v3). -/
def retry_if_SendMsgError : PyExc → Bool
  | PyExc.sendMsgError _ => true
  | _ => false

/-- tenacity's default retry predicate (`retry_if_exception_type()` with its
default `Exception`): retry on any exception (slack_retries_v1.py and the
`retry_options` decorator of retries_slack.py). -/
def retry_any : PyExc → Bool := fun _ => true

/-- The error string `"{msg} - {status}"` raised with `SendMsgError` in
slack_retries_v2/v3. -/
def statusMsg (body : String) (status : Nat) : String :=
  body ++ " - " ++ toString status

/-- The error string `"{url}: {status} - {reason}"` built in
retries_slack.py. -/
def mkErrMsg (url : String) (status : Nat) (reason : String) : String :=
  url ++ ": " ++ toString status ++ " - " ++ reason

/-- `send_msg_slack` of slack_simple_rq.py: set the `channel` key of the
caller's dict, post, `raise_for_status`, return the body. -/
def send_msg_slack_simple (channel : String) (msg : Dict) (r : HttpResult) :
    Dict × Except PyExc String :=
  match r with
  | HttpResult.transportError =>
      (dictSet msg "channel" ("#" ++ channel), Except.error PyExc.transportError)
  | HttpResult.resp resp =>
      match raise_for_status resp.status with
      | some e => (dictSet msg "channel" ("#" ++ channel), Except.error e)
      | none => (dictSet msg "channel" ("#" ++ channel), Except.ok resp.body)

/-- The result dict built by `SlackPub.send_msg_slack` in retries_slack.py
(the constant `destination` field is omitted as it never varies). -/
structure SendResult where
  success : Bool
  response : String
  err_msg : String
deriving DecidableEq, Repr

/-- `SlackPub.send_msg_slack` of retries_slack.py.  The message posted is
built afresh by `prepare_msg` (the caller's dict is not touched), so the
threaded state is just the one-shot wait slot.  Status 200 returns the
result dict with `success=True`; any other status flags the result as a
failure; 429 stores the integer `Retry-After` header (when present) in the
wait slot and raises `SendMsgError`, 5xx raises `SendMsgError`, and every
remaining status returns the failure-flagged result dict without raising. -/
def send_msg_slack_rs (url : String) (st : Option Nat) (r : HttpResult) :
    Option Nat × Except PyExc SendResult :=
  match r with
  | HttpResult.transportError => (st, Except.error PyExc.transportError)
  | HttpResult.resp resp =>
      if resp.status = 200 then
        (st, Except.ok ⟨true, resp.body, ""⟩)
      else if resp.status = 429 then
        match resp.retryAfter with
        | none => (st, Except.error (PyExc.sendMsgError (mkErrMsg url resp.status resp.reason)))
        | some k => (some k, Except.error (PyExc.sendMsgError (mkErrMsg url resp.status resp.reason)))
      else if 500 ≤ resp.status then
        (st, Except.error (PyExc.sendMsgError (mkErrMsg url resp.status resp.reason)))
      else
        (st, Except.ok ⟨false, resp.body, mkErrMsg url resp.status resp.reason⟩)

/-- `send_msg_slack` of slack_retries_v1.py: set the channel key, post,
`raise_for_status`, return the body (any exception is retryable there). -/
def send_msg_slack_v1 (channel : String) (msg : Dict) (r : HttpResult) :
    Dict × Except PyExc String :=
  match r with
  | HttpResult.transportError =>
      (dictSet msg "channel" ("#" ++ channel), Except.error PyExc.transportError)
  | HttpResult.resp resp =>
      match raise_for_status resp.status with
      | some e => (dictSet msg "channel" ("#" ++ channel), Except.error e)
      | none => (dictSet msg "channel" ("#" ++ channel), Except.ok resp.body)

/-- `send_msg_slack` of slack_retries_v2.py: 200 returns the body; 429 or
5xx raise the retryable `SendMsgError`; anything else goes through
`raise_for_status` (raising the non-retryable `HTTPError` only for 4xx/5xx
codes, and falling through to return the body otherwise). -/
def send_msg_slack_v2 (channel : String) (msg : Dict) (r : HttpResult) :
    Dict × Except PyExc String :=
  match r with
  | HttpResult.transportError =>
      (dictSet msg "channel" ("#" ++ channel), Except.error PyExc.transportError)
  | HttpResult.resp resp =>
      if resp.status = 200 then
        (dictSet msg "channel" ("#" ++ channel), Except.ok resp.body)
      else if resp.status = 429 ∨ 500 ≤ resp.status then
        (dictSet msg "channel" ("#" ++ channel),
         Except.error (PyExc.sendMsgError (statusMsg resp.body resp.status)))
      else
        match raise_for_status resp.status with
        | some e => (dictSet msg "channel" ("#" ++ channel), Except.error e)
        | none => (dictSet msg "channel" ("#" ++ channel), Except.ok resp.body)

/-- `SlackPub.send_msg_slack` of slack_retries_v3.py: like v2, but on 429 a
present integer `Retry-After` header is stored into the object's one-shot
wait slot before `SendMsgError` is raised.  The threaded state is the
caller's dict together with the wait slot. -/
def send_msg_slack_v3 (channel : String) (st : Dict × Option Nat) (r : HttpResult) :
    (Dict × Option Nat) × Except PyExc String :=
  match r with
  | HttpResult.transportError =>
      ((dictSet st.1 "channel" ("#" ++ channel), st.2), Except.error PyExc.transportError)
  | HttpResult.resp resp =>
      if resp.status = 200 then
        ((dictSet st.1 "channel" ("#" ++ channel), st.2), Except.ok resp.body)
      else if resp.status = 429 then
        ((dictSet st.1 "channel" ("#" ++ channel),
          match resp.retryAfter with
          | some k => some k
          | none => st.2),
         Except.error (PyExc.sendMsgError (statusMsg resp.body resp.status)))
      else if 500 ≤ resp.status then
        ((dictSet st.1 "channel" ("#" ++ channel), st.2),
         Except.error (PyExc.sendMsgError (statusMsg resp.body resp.status)))
      else
        match raise_for_status resp.status with
        | some e => ((dictSet st.1 "channel" ("#" ++ channel), st.2), Except.error e)
        | none => ((dictSet st.1 "channel" ("#" ++ channel), st.2), Except.ok resp.body)

/-- The wait strategy of slack_retries_v1.py:
`wait_exponential(multiplier=1, min=0, max=10)` (stateless). -/
def wait_exp_v1 (st : Dict) (n : Nat) : Dict × Nat := (st, wait_exponential 1 0 10 n)

/-- The wait strategy of slack_retries_v2.py:
`wait_exponential(multiplier=1, min=4, max=10)` (stateless). -/
def wait_exp_v2 (st : Dict) (n : Nat) : Dict × Nat := (st, wait_exponential 1 4 10 n)

/-- One call of v1's decorated `send_msg_slack`:
`stop_after_attempt(4)`, exponential wait, default retry predicate. -/
def run_v1 (channel : String) (msg : Dict) (resp : Nat → HttpResult) : RunOut Dict String :=
  tenacityRun 4 retry_any false wait_exp_v1 (send_msg_slack_v1 channel) resp msg

/-- One call of v2's decorated `send_msg_slack`: `stop_after_attempt(4)`,
exponential wait with `min=4`, retry only on `SendMsgError`. -/
def run_v2 (channel : String) (msg : Dict) (resp : Nat → HttpResult) : RunOut Dict String :=
  tenacityRun 4 retry_if_SendMsgError false wait_exp_v2 (send_msg_slack_v2 channel) resp msg

/-- One call of v3's decorated `SlackPub.send_msg_slack`, starting from a
fresh object (`self.wait['send_msg_slack'] = None`): `stop_after_attempt(4)`,
`custom_wait`, retry only on `SendMsgError`. -/
def run_v3 (channel : String) (msg : Dict) (resp : Nat → HttpResult) :
    RunOut (Dict × Option Nat) String :=
  tenacityRun 4 retry_if_SendMsgError false custom_wait_v3 (send_msg_slack_v3 channel) resp
    (msg, none)

/-- One call of retries_slack.py's decorated `SlackPub.send_msg_slack`,
starting from a fresh object: `retry_options` is `retry(reraise=True,
stop=stop_after_attempt(4), wait=custom_wait)` with the default retry
predicate. -/
def run_rs (url : String) (resp : Nat → HttpResult) : RunOut (Option Nat) SendResult :=
  tenacityRun 4 retry_any true custom_wait (send_msg_slack_rs url) resp none

/-- `TOTAL_ATTEMPS` of slack_retries_v0.py (source spelling kept). -/
def TOTAL_ATTEMPS : Nat := 4

/-- `SLEEP` of slack_retries_v0.py: the fixed delay slept after a failure. -/
def SLEEP : Nat := 1

/-- An observable event of v0's manual loop: one attempt (a `requests.post`
call) or one `time.sleep`. -/
inductive Ev
  | attempt : Nat → Ev
  | sleep : Nat → Ev
deriving DecidableEq, Repr

/-- Terminal behaviour of v0's `send_msg_slack`: a returned body, an
`HTTPError` raised by `raise_for_status` (carrying the status), a
connection-level exception propagated from `requests.post` (which sits
outside the `try` block), or the implicit `None` return when the final
`raise_for_status` does not raise (unreachable when the loop exhausted). -/
inductive V0Out
  | returned : String → V0Out
  | raisedHttp : Nat → V0Out
  | raisedTransport : V0Out
  | returnedNone : V0Out
deriving DecidableEq, Repr

/-- The `while attemp <= TOTAL_ATTEMPS` loop of v0's `send_msg_slack`.
`fuel` is the number of loop iterations left (`TOTAL_ATTEMPS - attemp + 1`),
`attemp` the 1-based counter, `lastStatus` the status of the previous
iteration's response (used by the final `raise_for_status` after the loop).
Each iteration sets the `channel` key of the caller's dict, posts, and on a
`raise_for_status` failure increments the counter and sleeps `SLEEP` before
the loop condition is re-tested; the sleep therefore also follows the last
failed attempt, right before the final re-raise. -/
def v0Loop (resp : Nat → HttpResult) (channel : String) :
    Nat → Nat → Dict → Nat → Dict × List Ev × V0Out
  | 0, _, msg, lastStatus =>
      (msg, [],
        match raise_for_status lastStatus with
        | some _ => V0Out.raisedHttp lastStatus
        | none => V0Out.returnedNone)
  | fuel+1, attemp, msg, _ =>
      match resp attemp with
      | HttpResult.transportError =>
          (dictSet msg "channel" ("#" ++ channel), [Ev.attempt attemp], V0Out.raisedTransport)
      | HttpResult.resp r =>
          match raise_for_status r.status with
          | some _ =>
              ((v0Loop resp channel fuel (attemp+1)
                  (dictSet msg "channel" ("#" ++ channel)) r.status).1,
               Ev.attempt attemp :: Ev.sleep SLEEP ::
                 (v0Loop resp channel fuel (attemp+1)
                   (dictSet msg "channel" ("#" ++ channel)) r.status).2.1,
               (v0Loop resp channel fuel (attemp+1)
                 (dictSet msg "channel" ("#" ++ channel)) r.status).2.2)
          | none =>
              (dictSet msg "channel" ("#" ++ channel), [Ev.attempt attemp],
               V0Out.returned r.body)

/-- `send_msg_slack` of slack_retries_v0.py: the manual loop started at
attempt 1 with the full budget.  Returns (final caller dict, event trace,
terminal behaviour). -/
def send_msg_slack_v0 (resp : Nat → HttpResult) (channel : String) (msg : Dict) :
    Dict × List Ev × V0Out :=
  v0Loop resp channel TOTAL_ATTEMPS 1 msg 0

/-- The number of attempts recorded in an event trace. -/
def countAttempts (evs : List Ev) : Nat :=
  (evs.filter fun e => match e with | Ev.attempt _ => true | _ => false).length

/-- When all four responses are HTTP failures (statuses in [400, 600)), v0
performs exactly four attempts, sleeps after each of them - the fourth
included - and finally re-raises the `HTTPError` of the last response. -/
theorem v0_all_fail (resp : Nat → HttpResult) (ch : String) (msg : Dict)
    (h : ∀ i, 1 ≤ i → i ≤ 4 →
      ∃ r : Response, resp i = HttpResult.resp r ∧ 400 ≤ r.status ∧ r.status < 600) :
    (send_msg_slack_v0 resp ch msg).2.1 =
      [Ev.attempt 1, Ev.sleep SLEEP, Ev.attempt 2, Ev.sleep SLEEP,
       Ev.attempt 3, Ev.sleep SLEEP, Ev.attempt 4, Ev.sleep SLEEP] ∧
    (send_msg_slack_v0 resp ch msg).2.2 = V0Out.raisedHttp (statusOf (resp 4)) := by
  obtain ⟨r1, hr1, h1a, h1b⟩ := h 1 (by omega) (by omega)
  obtain ⟨r2, hr2, h2a, h2b⟩ := h 2 (by omega) (by omega)
  obtain ⟨r3, hr3, h3a, h3b⟩ := h 3 (by omega) (by omega)
  obtain ⟨r4, hr4, h4a, h4b⟩ := h 4 (by omega) (by omega)
  unfold send_msg_slack_v0 TOTAL_ATTEMPS
  simp [v0Loop, hr1, hr2, hr3, hr4,
        raise_for_status_err h1a h1b, raise_for_status_err h2a h2b,
        raise_for_status_err h3a h3b, raise_for_status_err h4a h4b, statusOf]

/-- C6: when no server-directed override is pending (`custom_wait` on an
empty slot), retries_slack.py's fixed-chain default yields 1 second before
each of the first two retries, 3 seconds before each of the next two, and 6
seconds for any retry after that. -/
theorem c6_default_wait_chain :
    ∀ n : Nat, custom_wait none n = (none, default_wait n) ∧
      default_wait n = (if n ≤ 2 then 1 else if n ≤ 4 then 3 else 6) := by
  intro n
  refine ⟨rfl, ?_⟩
  match n with
  | 0 => rfl
  | 1 => rfl
  | 2 => rfl
  | 3 => rfl
  | 4 => rfl
  | (m+5) =>
    have h1 : max (m+5) 1 = m+5 := max_eq_left (by omega)
    rw [if_neg (by omega), if_neg (by omega)]
    simp [default_wait, wait_chain, wait_fixed, h1, min_eq_right (by omega : 5 ≤ m+5)]

theorem wait_exponential_mono (mult mn mx : Nat) {n m : Nat} (h : n ≤ m) :
    wait_exponential mult mn mx n ≤ wait_exponential mult mn mx m := by
  unfold wait_exponential
  have hp : mult * 2 ^ (n - 1) ≤ mult * 2 ^ (m - 1) :=
    Nat.mul_le_mul (le_refl mult) (Nat.pow_le_pow_right (by omega) (by omega))
  exact max_le_max (le_refl _) (min_le_min hp (le_refl _))

/-- C7: in the exponential-backoff variants
(`wait_exponential(multiplier=1, min=0, max=10)` in v1 and
`wait_exponential(multiplier=1, min=4, max=10)` in v2), every delay lies
between the configured minimum and the cap of 10 seconds, and delays are
monotonically non-decreasing in the attempt index. -/
theorem c7_exponential_bounds :
    ∀ n m : Nat, n ≤ m →
      (0 ≤ wait_exponential 1 0 10 n ∧ wait_exponential 1 0 10 n ≤ 10 ∧
        wait_exponential 1 0 10 n ≤ wait_exponential 1 0 10 m) ∧
      (4 ≤ wait_exponential 1 4 10 n ∧ wait_exponential 1 4 10 n ≤ 10 ∧
        wait_exponential 1 4 10 n ≤ wait_exponential 1 4 10 m) := by
  intro n m h
  refine ⟨⟨Nat.zero_le _, ?_, wait_exponential_mono 1 0 10 h⟩,
          ⟨?_, ?_, wait_exponential_mono 1 4 10 h⟩⟩
  · exact max_le (by omega) (min_le_right _ _)
  · exact le_trans (le_max_right 0 4) (le_max_left _ _)
  · exact max_le (by omega) (min_le_right _ _)

theorem c7_exponential_bounds_witness :
    (0 ≤ wait_exponential 1 0 10 1 ∧ wait_exponential 1 0 10 1 ≤ 10 ∧
      wait_exponential 1 0 10 1 ≤ wait_exponential 1 0 10 2) ∧
    (4 ≤ wait_exponential 1 4 10 1 ∧ wait_exponential 1 4 10 1 ≤ 10 ∧
      wait_exponential 1 4 10 1 ≤ wait_exponential 1 4 10 2) :=
  c7_exponential_bounds 1 2 (by omega)

/-- C8: the retry engine is deterministic - two runs started from a fresh
(empty) override slot that observe identical response sequences produce
identical traces (final state, per-attempt outcomes, chosen delays, and
terminal result), for both the slack_retries_v3.py engine and the
retries_slack.py engine. -/
theorem c8_deterministic :
    ∀ (ch url : String) (msg : Dict) (f g : Nat → HttpResult),
      (∀ n, f n = g n) →
      run_v3 ch msg f = run_v3 ch msg g ∧ run_rs url f = run_rs url g := by
  intro ch url msg f g h
  have hfg : f = g := funext h
  rw [hfg]
  exact ⟨rfl, rfl⟩

theorem c8_deterministic_witness :
    run_v3 "c" [] (fun _ => HttpResult.transportError) =
      run_v3 "c" [] (fun _ => HttpResult.transportError) ∧
    run_rs "u" (fun _ => HttpResult.transportError) =
      run_rs "u" (fun _ => HttpResult.transportError) :=
  c8_deterministic "c" "u" []
    (fun _ => HttpResult.transportError) (fun _ => HttpResult.transportError)
    (fun _ => rfl)

/-- C1: for every retry policy stopped by `stop_after_attempt(4)`, if the
operation yields a retryable failure on every attempt then exactly 4
attempts are performed and the run terminates with an error carrying the
last failure (re-raised as-is under `reraise=True` as in `retry_options`,
wrapped in `RetryError` otherwise); the number of attempts of one call
never exceeds 4; likewise v0's manual loop performs exactly its 4 attempts
and re-raises the last HTTP error when every attempt fails. -/
theorem c1_attempt_budget :
    ∀ (σ α : Type) (pred : PyExc → Bool) (reraise : Bool) (wait : σ → Nat → σ × Nat)
      (body : σ → HttpResult → σ × Except PyExc α) (resp : Nat → HttpResult) (st0 : σ),
      ((∀ (n : Nat) (st : σ), ∃ e, (body st (resp n)).2 = Except.error e ∧ pred e = true) →
        (tenacityRun 4 pred reraise wait body resp st0).outcomes.length = 4 ∧
        some (tenacityRun 4 pred reraise wait body resp st0).result =
          terminalOf reraise (tenacityRun 4 pred reraise wait body resp st0)) ∧
      (tenacityRun 4 pred reraise wait body resp st0).outcomes.length ≤ 4 ∧
      (∀ (resp' : Nat → HttpResult) (ch : String) (msg : Dict),
        (∀ i, 1 ≤ i → i ≤ 4 →
          ∃ r : Response, resp' i = HttpResult.resp r ∧ 400 ≤ r.status ∧ r.status < 600) →
        countAttempts (send_msg_slack_v0 resp' ch msg).2.1 = 4 ∧
        (send_msg_slack_v0 resp' ch msg).2.2 = V0Out.raisedHttp (statusOf (resp' 4))) := by
  intro σ α pred reraise wait body resp st0
  refine ⟨?_, ?_, ?_⟩
  · intro h
    obtain ⟨hlen, e, hres, hlast⟩ := tenacityAux_all_fail pred reraise wait body resp h 3 1 st0
    refine ⟨hlen, ?_⟩
    show some (tenacityAux pred reraise wait body resp 3 1 st0).result =
      terminalOf reraise (tenacityAux pred reraise wait body resp 3 1 st0)
    unfold terminalOf lastErr
    rw [hlast, hres]
  · exact tenacityAux_length_le pred reraise wait body resp 3 1 st0
  · intro resp' ch msg h
    obtain ⟨hev, hout⟩ := v0_all_fail resp' ch msg h
    rw [hev]
    exact ⟨rfl, hout⟩

theorem c1_attempt_budget_witness :
    ((tenacityRun 4 retry_any true custom_wait (send_msg_slack_rs "u")
        (fun _ => HttpResult.resp ⟨500, none, "b", "r"⟩) none).outcomes.length = 4 ∧
      some (tenacityRun 4 retry_any true custom_wait (send_msg_slack_rs "u")
        (fun _ => HttpResult.resp ⟨500, none, "b", "r"⟩) none).result =
        terminalOf true (tenacityRun 4 retry_any true custom_wait (send_msg_slack_rs "u")
          (fun _ => HttpResult.resp ⟨500, none, "b", "r"⟩) none)) ∧
    (tenacityRun 4 retry_any true custom_wait (send_msg_slack_rs "u")
        (fun _ => HttpResult.resp ⟨500, none, "b", "r"⟩) none).outcomes.length ≤ 4 ∧
    (countAttempts
        (send_msg_slack_v0 (fun _ => HttpResult.resp ⟨500, none, "b", "r"⟩) "c" []).2.1 = 4 ∧
      (send_msg_slack_v0 (fun _ => HttpResult.resp ⟨500, none, "b", "r"⟩) "c" []).2.2 =
        V0Out.raisedHttp (statusOf ((fun _ => HttpResult.resp ⟨500, none, "b", "r"⟩) 4))) := by
  obtain ⟨h1, h2, h3⟩ := c1_attempt_budget (Option Nat) SendResult retry_any true custom_wait
    (send_msg_slack_rs "u") (fun _ => HttpResult.resp ⟨500, none, "b", "r"⟩) none
  exact ⟨h1 (fun n st => ⟨PyExc.sendMsgError (mkErrMsg "u" 500 "r"), rfl, rfl⟩), h2,
    h3 (fun _ => HttpResult.resp ⟨500, none, "b", "r"⟩) "c" []
      (fun i hi1 hi2 => ⟨⟨500, none, "b", "r"⟩, rfl, by decide, by decide⟩)⟩

/-- C2: a 429 response with an integer `Retry-After` header of k seconds is
classified retryable (`SendMsgError`, accepted by the retry predicate) with
the override slot set to k; in a run the delay before the immediately
following attempt is exactly k (not the default schedule) and the slot is
cleared when consumed, so any later wait with no fresh hint falls back to
the default schedule; a 429 without the header is still retryable and sets
no suggested delay. -/
theorem c2_retry_after_override :
    ∀ (k w n : Nat) (ch b rz b2 rz2 : String) (msg d : Dict) (st : Dict × Option Nat)
      (resp : Nat → HttpResult),
      ((send_msg_slack_v3 ch st (HttpResult.resp ⟨429, some k, b, rz⟩)).2 =
          Except.error (PyExc.sendMsgError (statusMsg b 429)) ∧
        (send_msg_slack_v3 ch st (HttpResult.resp ⟨429, some k, b, rz⟩)).1.2 = some k ∧
        retry_if_SendMsgError (PyExc.sendMsgError (statusMsg b 429)) = true) ∧
      (resp 1 = HttpResult.resp ⟨429, some k, b, rz⟩ →
        resp 2 = HttpResult.resp ⟨200, none, b2, rz2⟩ →
        (run_v3 ch msg resp).delays = [k] ∧
        (run_v3 ch msg resp).outcomes.length = 2 ∧
        (run_v3 ch msg resp).result = RunResult.success b2 ∧
        (run_v3 ch msg resp).finalState.2 = none) ∧
      (custom_wait_v3 (d, some w) n = ((d, none), w) ∧
        custom_wait_v3 (d, none) n = ((d, none), default_wait_v3 n) ∧
        custom_wait (some w) n = (none, w) ∧
        custom_wait none n = (none, default_wait n)) ∧
      ((send_msg_slack_v3 ch st (HttpResult.resp ⟨429, none, b, rz⟩)).2 =
          Except.error (PyExc.sendMsgError (statusMsg b 429)) ∧
        (send_msg_slack_v3 ch st (HttpResult.resp ⟨429, none, b, rz⟩)).1.2 = st.2) := by
  intro k w n ch b rz b2 rz2 msg d st resp
  refine ⟨⟨rfl, rfl, rfl⟩, ?_, ⟨rfl, rfl, rfl, rfl⟩, rfl, rfl⟩
  intro h1 h2
  have hb1 : send_msg_slack_v3 ch (msg, none) (resp 1) =
      ((dictSet msg "channel" ("#" ++ ch), some k),
       Except.error (PyExc.sendMsgError (statusMsg b 429))) := by
    rw [h1]
    rfl
  have hb2 : send_msg_slack_v3 ch
      (custom_wait_v3 (dictSet msg "channel" ("#" ++ ch), some k) 1).1 (resp 2) =
      ((dictSet (dictSet msg "channel" ("#" ++ ch)) "channel" ("#" ++ ch), none),
       Except.ok b2) := by
    rw [h2]
    rfl
  have hrun : run_v3 ch msg resp =
      tenacityAux retry_if_SendMsgError false custom_wait_v3 (send_msg_slack_v3 ch)
        resp 3 1 (msg, none) := rfl
  rw [hrun,
    tenacityAux_err_cont retry_if_SendMsgError false custom_wait_v3 (send_msg_slack_v3 ch)
      resp 2 1 (msg, none) _ _ hb1 rfl,
    tenacityAux_ok retry_if_SendMsgError false custom_wait_v3 (send_msg_slack_v3 ch)
      resp 2 2 _ _ _ hb2]
  exact ⟨rfl, rfl, rfl, rfl⟩

theorem c2_retry_after_override_witness :
    ((send_msg_slack_v3 "c" ([], none) (HttpResult.resp ⟨429, some 7, "b", "r"⟩)).2 =
        Except.error (PyExc.sendMsgError (statusMsg "b" 429)) ∧
      (send_msg_slack_v3 "c" ([], none) (HttpResult.resp ⟨429, some 7, "b", "r"⟩)).1.2 = some 7 ∧
      retry_if_SendMsgError (PyExc.sendMsgError (statusMsg "b" 429)) = true) ∧
    ((run_v3 "c" []
        (fun i => if i = 1 then HttpResult.resp ⟨429, some 7, "b", "r"⟩
                  else HttpResult.resp ⟨200, none, "ok", "OK"⟩)).delays = [7] ∧
      (run_v3 "c" []
        (fun i => if i = 1 then HttpResult.resp ⟨429, some 7, "b", "r"⟩
                  else HttpResult.resp ⟨200, none, "ok", "OK"⟩)).outcomes.length = 2 ∧
      (run_v3 "c" []
        (fun i => if i = 1 then HttpResult.resp ⟨429, some 7, "b", "r"⟩
                  else HttpResult.resp ⟨200, none, "ok", "OK"⟩)).result = RunResult.success "ok" ∧
      (run_v3 "c" []
        (fun i => if i = 1 then HttpResult.resp ⟨429, some 7, "b", "r"⟩
                  else HttpResult.resp ⟨200, none, "ok", "OK"⟩)).finalState.2 = none) ∧
    (custom_wait_v3 ([], some 9) 2 = (([], none), 9) ∧
      custom_wait_v3 ([], none) 2 = (([], none), default_wait_v3 2) ∧
      custom_wait (some 9) 2 = (none, 9) ∧
      custom_wait none 2 = (none, default_wait 2)) ∧
    ((send_msg_slack_v3 "c" ([], none) (HttpResult.resp ⟨429, none, "b", "r"⟩)).2 =
        Except.error (PyExc.sendMsgError (statusMsg "b" 429)) ∧
      (send_msg_slack_v3 "c" ([], none) (HttpResult.resp ⟨429, none, "b", "r"⟩)).1.2 = none) := by
  obtain ⟨ha, hb, hc, hd⟩ := c2_retry_after_override 7 9 2 "c" "b" "r" "ok" "OK" [] []
    ([], none)
    (fun i => if i = 1 then HttpResult.resp ⟨429, some 7, "b", "r"⟩
              else HttpResult.resp ⟨200, none, "ok", "OK"⟩)
  exact ⟨ha, hb rfl rfl, hc, hd⟩

/-- C3 counterexample: status 201 lies in the 2xx range, yet retries_slack.py
classifies it as a failure - the returned result dict has `success = False`
(only status 200 is classified a success there). -/
theorem c3_counterexample :
    ¬ (∀ s : Nat, 200 ≤ s → s ≤ 299 →
        ∃ res : SendResult,
          (send_msg_slack_rs "u" none (HttpResult.resp ⟨s, none, "b", "r"⟩)).2 =
            Except.ok res ∧ res.success = true) := by
  intro h
  obtain ⟨res, heq, hs⟩ := h 201 (by omega) (by omega)
  have hcomp : (send_msg_slack_rs "u" none (HttpResult.resp ⟨201, none, "b", "r"⟩)).2 =
      Except.ok ⟨false, "b", mkErrMsg "u" 201 "r"⟩ := rfl
  rw [hcomp] at heq
  injection heq with h2
  rw [← h2] at hs
  simp at hs

/-- C3 (amended): every 2xx status yields a single attempt with no retry and
a normal return; v2 and v3 return the response body, but only status 200 is
classified a success - retries_slack.py returns the result dict flagged
`success = False` (with an error message) for any other 2xx status. -/
theorem c3_only_200_success :
    ∀ (s : Nat) (ch url b rz : String) (msg : Dict) (resp : Nat → HttpResult),
      200 ≤ s → s ≤ 299 → resp 1 = HttpResult.resp ⟨s, none, b, rz⟩ →
      ((run_v2 ch msg resp).outcomes.length = 1 ∧
        (run_v2 ch msg resp).result = RunResult.success b) ∧
      ((run_v3 ch msg resp).outcomes.length = 1 ∧
        (run_v3 ch msg resp).result = RunResult.success b) ∧
      ((run_rs url resp).outcomes.length = 1 ∧
        (run_rs url resp).result = RunResult.success
          (if s = 200 then ⟨true, b, ""⟩ else ⟨false, b, mkErrMsg url s rz⟩)) := by
  intro s ch url b rz msg resp h1 h2 hresp
  have hb2 : send_msg_slack_v2 ch msg (resp 1) =
      (dictSet msg "channel" ("#" ++ ch), Except.ok b) := by
    rw [hresp]
    by_cases hs : s = 200
    · subst hs
      rfl
    · unfold send_msg_slack_v2
      dsimp only
      rw [if_neg hs, if_neg (by omega : ¬ (s = 429 ∨ 500 ≤ s)),
        raise_for_status_ok (by omega)]
  have hb3 : send_msg_slack_v3 ch (msg, none) (resp 1) =
      ((dictSet msg "channel" ("#" ++ ch), none), Except.ok b) := by
    rw [hresp]
    by_cases hs : s = 200
    · subst hs
      rfl
    · unfold send_msg_slack_v3
      dsimp only
      rw [if_neg hs, if_neg (by omega : ¬ s = 429), if_neg (by omega : ¬ 500 ≤ s),
        raise_for_status_ok (by omega)]
  have hbrs : send_msg_slack_rs url none (resp 1) =
      (none, Except.ok (if s = 200 then ⟨true, b, ""⟩ else ⟨false, b, mkErrMsg url s rz⟩)) := by
    rw [hresp]
    by_cases hs : s = 200
    · subst hs
      rfl
    · unfold send_msg_slack_rs
      dsimp only
      rw [if_neg hs, if_neg (by omega : ¬ s = 429), if_neg (by omega : ¬ 500 ≤ s),
        if_neg hs]
  refine ⟨?_, ?_, ?_⟩
  · rw [show run_v2 ch msg resp = tenacityAux retry_if_SendMsgError false wait_exp_v2
        (send_msg_slack_v2 ch) resp 3 1 msg from rfl,
      tenacityAux_ok retry_if_SendMsgError false wait_exp_v2 (send_msg_slack_v2 ch)
        resp 3 1 msg _ _ hb2]
    exact ⟨rfl, rfl⟩
  · rw [show run_v3 ch msg resp = tenacityAux retry_if_SendMsgError false custom_wait_v3
        (send_msg_slack_v3 ch) resp 3 1 (msg, none) from rfl,
      tenacityAux_ok retry_if_SendMsgError false custom_wait_v3 (send_msg_slack_v3 ch)
        resp 3 1 (msg, none) _ _ hb3]
    exact ⟨rfl, rfl⟩
  · rw [show run_rs url resp = tenacityAux retry_any true custom_wait
        (send_msg_slack_rs url) resp 3 1 none from rfl,
      tenacityAux_ok retry_any true custom_wait (send_msg_slack_rs url)
        resp 3 1 none _ _ hbrs]
    exact ⟨rfl, rfl⟩

theorem c3_only_200_success_witness :
    ((run_v2 "c" [] (fun _ => HttpResult.resp ⟨204, none, "b", "r"⟩)).outcomes.length = 1 ∧
      (run_v2 "c" [] (fun _ => HttpResult.resp ⟨204, none, "b", "r"⟩)).result =
        RunResult.success "b") ∧
    ((run_v3 "c" [] (fun _ => HttpResult.resp ⟨204, none, "b", "r"⟩)).outcomes.length = 1 ∧
      (run_v3 "c" [] (fun _ => HttpResult.resp ⟨204, none, "b", "r"⟩)).result =
        RunResult.success "b") ∧
    ((run_rs "u" (fun _ => HttpResult.resp ⟨204, none, "b", "r"⟩)).outcomes.length = 1 ∧
      (run_rs "u" (fun _ => HttpResult.resp ⟨204, none, "b", "r"⟩)).result =
        RunResult.success
          (if 204 = 200 then ⟨true, "b", ""⟩ else ⟨false, "b", mkErrMsg "u" 204 "r"⟩)) :=
  c3_only_200_success 204 "c" "u" "b" "r" []
    (fun _ => HttpResult.resp ⟨204, none, "b", "r"⟩) (by omega) (by omega) rfl

/-- C4 counterexample: a 404 - the claim's own example - does not make
retries_slack.py raise: its body returns the failure-flagged result dict,
so the run ends with a normal return after one attempt instead of raising. -/
theorem c4_counterexample :
    ¬ (∀ (s : Nat) (resp : Nat → HttpResult),
        (s < 200 ∨ 300 ≤ s) → s ≠ 429 → s < 500 →
        resp 1 = HttpResult.resp ⟨s, none, "b", "r"⟩ →
        (run_rs "u" resp).outcomes.length = 1 ∧ (run_rs "u" resp).delays = [] ∧
        ∃ e, (run_rs "u" resp).result = RunResult.raised e) := by
  intro h
  obtain ⟨_, _, e, hres⟩ := h 404 (fun _ => HttpResult.resp ⟨404, none, "b", "r"⟩)
    (by omega) (by omega) (by omega) rfl
  have hcomp : (run_rs "u" (fun _ => HttpResult.resp ⟨404, none, "b", "r"⟩)).result =
      RunResult.success ⟨false, "b", mkErrMsg "u" 404 "r"⟩ := rfl
  rw [hcomp] at hres
  cases hres

/-- C4 (amended): for 4xx statuses other than 429, v2 and v3 raise the
non-retryable `HTTPError` immediately after a single attempt with no sleep;
retries_slack.py, however, does not raise on such statuses (e.g. 404): its
body returns the failure-flagged result dict, so the run ends with a normal
return after one attempt and no sleep. -/
theorem c4_client_error_fail_fast :
    ∀ (s : Nat) (ch url b rz : String) (msg : Dict) (resp : Nat → HttpResult),
      400 ≤ s → s < 500 → s ≠ 429 → resp 1 = HttpResult.resp ⟨s, none, b, rz⟩ →
      ((run_v2 ch msg resp).outcomes.length = 1 ∧ (run_v2 ch msg resp).delays = [] ∧
        (run_v2 ch msg resp).result = RunResult.raised (PyExc.httpError s)) ∧
      ((run_v3 ch msg resp).outcomes.length = 1 ∧ (run_v3 ch msg resp).delays = [] ∧
        (run_v3 ch msg resp).result = RunResult.raised (PyExc.httpError s)) ∧
      ((run_rs url resp).outcomes.length = 1 ∧ (run_rs url resp).delays = [] ∧
        (run_rs url resp).result = RunResult.success ⟨false, b, mkErrMsg url s rz⟩) := by
  intro s ch url b rz msg resp h4 h5 h429 hresp
  have hb2 : send_msg_slack_v2 ch msg (resp 1) =
      (dictSet msg "channel" ("#" ++ ch), Except.error (PyExc.httpError s)) := by
    rw [hresp]
    unfold send_msg_slack_v2
    dsimp only
    rw [if_neg (by omega : ¬ s = 200), if_neg (by omega : ¬ (s = 429 ∨ 500 ≤ s)),
      raise_for_status_err h4 (by omega)]
  have hb3 : send_msg_slack_v3 ch (msg, none) (resp 1) =
      ((dictSet msg "channel" ("#" ++ ch), none), Except.error (PyExc.httpError s)) := by
    rw [hresp]
    unfold send_msg_slack_v3
    dsimp only
    rw [if_neg (by omega : ¬ s = 200), if_neg h429, if_neg (by omega : ¬ 500 ≤ s),
      raise_for_status_err h4 (by omega)]
  have hbrs : send_msg_slack_rs url none (resp 1) =
      (none, Except.ok ⟨false, b, mkErrMsg url s rz⟩) := by
    rw [hresp]
    unfold send_msg_slack_rs
    dsimp only
    rw [if_neg (by omega : ¬ s = 200), if_neg h429, if_neg (by omega : ¬ 500 ≤ s)]
  refine ⟨?_, ?_, ?_⟩
  · rw [show run_v2 ch msg resp = tenacityAux retry_if_SendMsgError false wait_exp_v2
        (send_msg_slack_v2 ch) resp 3 1 msg from rfl,
      tenacityAux_err_fatal retry_if_SendMsgError false wait_exp_v2 (send_msg_slack_v2 ch)
        resp 3 1 msg _ _ hb2 rfl]
    exact ⟨rfl, rfl, rfl⟩
  · rw [show run_v3 ch msg resp = tenacityAux retry_if_SendMsgError false custom_wait_v3
        (send_msg_slack_v3 ch) resp 3 1 (msg, none) from rfl,
      tenacityAux_err_fatal retry_if_SendMsgError false custom_wait_v3 (send_msg_slack_v3 ch)
        resp 3 1 (msg, none) _ _ hb3 rfl]
    exact ⟨rfl, rfl, rfl⟩
  · rw [show run_rs url resp = tenacityAux retry_any true custom_wait
        (send_msg_slack_rs url) resp 3 1 none from rfl,
      tenacityAux_ok retry_any true custom_wait (send_msg_slack_rs url)
        resp 3 1 none _ _ hbrs]
    exact ⟨rfl, rfl, rfl⟩

theorem c4_client_error_fail_fast_witness :
    ((run_v2 "c" [] (fun _ => HttpResult.resp ⟨404, none, "b", "r"⟩)).outcomes.length = 1 ∧
      (run_v2 "c" [] (fun _ => HttpResult.resp ⟨404, none, "b", "r"⟩)).delays = [] ∧
      (run_v2 "c" [] (fun _ => HttpResult.resp ⟨404, none, "b", "r"⟩)).result =
        RunResult.raised (PyExc.httpError 404)) ∧
    ((run_v3 "c" [] (fun _ => HttpResult.resp ⟨404, none, "b", "r"⟩)).outcomes.length = 1 ∧
      (run_v3 "c" [] (fun _ => HttpResult.resp ⟨404, none, "b", "r"⟩)).delays = [] ∧
      (run_v3 "c" [] (fun _ => HttpResult.resp ⟨404, none, "b", "r"⟩)).result =
        RunResult.raised (PyExc.httpError 404)) ∧
    ((run_rs "u" (fun _ => HttpResult.resp ⟨404, none, "b", "r"⟩)).outcomes.length = 1 ∧
      (run_rs "u" (fun _ => HttpResult.resp ⟨404, none, "b", "r"⟩)).delays = [] ∧
      (run_rs "u" (fun _ => HttpResult.resp ⟨404, none, "b", "r"⟩)).result =
        RunResult.success ⟨false, "b", mkErrMsg "u" 404 "r"⟩) :=
  c4_client_error_fail_fast 404 "c" "u" "b" "r" []
    (fun _ => HttpResult.resp ⟨404, none, "b", "r"⟩) (by omega) (by omega) (by omega) rfl

/-- C5 counterexample: in slack_retries_v2.py a transport failure on the
first attempt is NOT absorbed by the retry loop - the retry predicate
`retry_if_exception_type(SendMsgError)` rejects it, so the run stops after
a single attempt instead of retrying within the budget. -/
theorem c5_counterexample :
    ¬ (∀ (ch : String) (msg : Dict) (resp : Nat → HttpResult),
        resp 1 = HttpResult.transportError →
        2 ≤ (run_v2 ch msg resp).outcomes.length) := by
  intro h
  have h2 := h "c" [] (fun _ => HttpResult.transportError) rfl
  have hcomp : (run_v2 "c" [] (fun _ => HttpResult.transportError)).outcomes.length = 1 := rfl
  omega

/-- C5 (amended): a transport-level failure is treated as retryable only
where the retry predicate accepts any exception: retries_slack.py (which
re-raises it after the full 4-attempt budget) and v1 (which wraps it in
`RetryError` after 4 attempts) absorb it; v2 and v3 (retry only on
`SendMsgError`) propagate it immediately after one attempt, and v0
propagates it too because its `requests.post` call sits outside the try
block of the manual loop. -/
theorem c5_transport_retryability :
    ∀ (url ch : String) (msg : Dict) (resp : Nat → HttpResult),
      (∀ n, resp n = HttpResult.transportError) →
      ((run_rs url resp).outcomes.length = 4 ∧
        (run_rs url resp).result = RunResult.raised PyExc.transportError) ∧
      ((run_v1 ch msg resp).outcomes.length = 4 ∧
        (run_v1 ch msg resp).result = RunResult.retryError PyExc.transportError) ∧
      ((run_v2 ch msg resp).outcomes.length = 1 ∧
        (run_v2 ch msg resp).result = RunResult.raised PyExc.transportError) ∧
      ((run_v3 ch msg resp).outcomes.length = 1 ∧
        (run_v3 ch msg resp).result = RunResult.raised PyExc.transportError) ∧
      ((send_msg_slack_v0 resp ch msg).2.2 = V0Out.raisedTransport ∧
        countAttempts (send_msg_slack_v0 resp ch msg).2.1 = 1) := by
  intro url ch msg resp h
  have hr : resp = fun _ => HttpResult.transportError := funext h
  subst hr
  exact ⟨⟨rfl, rfl⟩, ⟨rfl, rfl⟩, ⟨rfl, rfl⟩, ⟨rfl, rfl⟩, rfl, rfl⟩

theorem c5_transport_retryability_witness :
    ((run_rs "u" (fun _ => HttpResult.transportError)).outcomes.length = 4 ∧
      (run_rs "u" (fun _ => HttpResult.transportError)).result =
        RunResult.raised PyExc.transportError) ∧
    ((run_v1 "c" [] (fun _ => HttpResult.transportError)).outcomes.length = 4 ∧
      (run_v1 "c" [] (fun _ => HttpResult.transportError)).result =
        RunResult.retryError PyExc.transportError) ∧
    ((run_v2 "c" [] (fun _ => HttpResult.transportError)).outcomes.length = 1 ∧
      (run_v2 "c" [] (fun _ => HttpResult.transportError)).result =
        RunResult.raised PyExc.transportError) ∧
    ((run_v3 "c" [] (fun _ => HttpResult.transportError)).outcomes.length = 1 ∧
      (run_v3 "c" [] (fun _ => HttpResult.transportError)).result =
        RunResult.raised PyExc.transportError) ∧
    ((send_msg_slack_v0 (fun _ => HttpResult.transportError) "c" []).2.2 =
        V0Out.raisedTransport ∧
      countAttempts (send_msg_slack_v0 (fun _ => HttpResult.transportError) "c" []).2.1 = 1) :=
  c5_transport_retryability "u" "c" [] (fun _ => HttpResult.transportError) (fun _ => rfl)

theorem send_msg_slack_v3_dict (ch : String) (st : Dict × Option Nat) (r : HttpResult) :
    (send_msg_slack_v3 ch st r).1.1 = dictSet st.1 "channel" ("#" ++ ch) := by
  cases r with
  | transportError => rfl
  | resp rr =>
    unfold send_msg_slack_v3
    dsimp only
    by_cases h200 : rr.status = 200
    · rw [if_pos h200]
    · rw [if_neg h200]
      by_cases h429 : rr.status = 429
      · rw [if_pos h429]
      · rw [if_neg h429]
        by_cases h500 : 500 ≤ rr.status
        · rw [if_pos h500]
        · rw [if_neg h500]
          rcases hrs : raise_for_status rr.status with _ | e <;> simp [hrs]

theorem custom_wait_v3_dict (st : Dict × Option Nat) (n : Nat) :
    (custom_wait_v3 st n).1.1 = st.1 := by
  rcases st with ⟨d, _ | w⟩ <;> rfl

/-- Through any number of attempts of the v3 engine, the caller's dict ends
with its `channel` key set to `"#" ++ channel`, and no other key changed. -/
theorem tenacityAux_v3_dict (ch : String) (pred : PyExc → Bool) (reraise : Bool)
    (resp : Nat → HttpResult) :
    ∀ (fuel n : Nat) (st : Dict × Option Nat),
      dictGet (tenacityAux pred reraise custom_wait_v3 (send_msg_slack_v3 ch)
          resp fuel n st).finalState.1 "channel" = some ("#" ++ ch) ∧
      ∀ k2, k2 ≠ "channel" →
        dictGet (tenacityAux pred reraise custom_wait_v3 (send_msg_slack_v3 ch)
            resp fuel n st).finalState.1 k2 = dictGet st.1 k2 := by
  intro fuel
  induction fuel with
  | zero =>
    intro n st
    rcases hb : send_msg_slack_v3 ch st (resp n) with ⟨st1, out⟩
    have hm : st1.1 = dictSet st.1 "channel" ("#" ++ ch) := by
      have hd := send_msg_slack_v3_dict ch st (resp n)
      rw [hb] at hd
      exact hd
    cases out with
    | ok a =>
      rw [tenacityAux_ok pred reraise custom_wait_v3 (send_msg_slack_v3 ch)
        resp 0 n st st1 a hb]
      exact ⟨by rw [hm, dictGet_dictSet_same],
        fun k2 hk2 => by rw [hm, dictGet_dictSet_other _ _ _ _ hk2]⟩
    | error e =>
      cases hp : pred e with
      | true =>
        rw [tenacityAux_err_stop pred reraise custom_wait_v3 (send_msg_slack_v3 ch)
          resp n st st1 e hb hp]
        exact ⟨by rw [hm, dictGet_dictSet_same],
          fun k2 hk2 => by rw [hm, dictGet_dictSet_other _ _ _ _ hk2]⟩
      | false =>
        rw [tenacityAux_err_fatal pred reraise custom_wait_v3 (send_msg_slack_v3 ch)
          resp 0 n st st1 e hb hp]
        exact ⟨by rw [hm, dictGet_dictSet_same],
          fun k2 hk2 => by rw [hm, dictGet_dictSet_other _ _ _ _ hk2]⟩
  | succ fuel ih =>
    intro n st
    rcases hb : send_msg_slack_v3 ch st (resp n) with ⟨st1, out⟩
    have hm : st1.1 = dictSet st.1 "channel" ("#" ++ ch) := by
      have hd := send_msg_slack_v3_dict ch st (resp n)
      rw [hb] at hd
      exact hd
    cases out with
    | ok a =>
      rw [tenacityAux_ok pred reraise custom_wait_v3 (send_msg_slack_v3 ch)
        resp (fuel+1) n st st1 a hb]
      exact ⟨by rw [hm, dictGet_dictSet_same],
        fun k2 hk2 => by rw [hm, dictGet_dictSet_other _ _ _ _ hk2]⟩
    | error e =>
      cases hp : pred e with
      | true =>
        rw [tenacityAux_err_cont pred reraise custom_wait_v3 (send_msg_slack_v3 ch)
          resp fuel n st st1 e hb hp]
        obtain ⟨ihc, iho⟩ := ih (n+1) (custom_wait_v3 st1 n).1
        refine ⟨ihc, fun k2 hk2 => ?_⟩
        rw [iho k2 hk2, custom_wait_v3_dict, hm, dictGet_dictSet_other _ _ _ _ hk2]
      | false =>
        rw [tenacityAux_err_fatal pred reraise custom_wait_v3 (send_msg_slack_v3 ch)
          resp (fuel+1) n st st1 e hb hp]
        exact ⟨by rw [hm, dictGet_dictSet_same],
          fun k2 hk2 => by rw [hm, dictGet_dictSet_other _ _ _ _ hk2]⟩

theorem v0Loop_step_err (resp : Nat → HttpResult) (ch : String)
    (fuel n last : Nat) (msg : Dict) (r : Response) (e : PyExc)
    (hr : resp n = HttpResult.resp r) (hrs : raise_for_status r.status = some e) :
    v0Loop resp ch (fuel+1) n msg last =
      ((v0Loop resp ch fuel (n+1) (dictSet msg "channel" ("#" ++ ch)) r.status).1,
       Ev.attempt n :: Ev.sleep SLEEP ::
         (v0Loop resp ch fuel (n+1) (dictSet msg "channel" ("#" ++ ch)) r.status).2.1,
       (v0Loop resp ch fuel (n+1) (dictSet msg "channel" ("#" ++ ch)) r.status).2.2) := by
  simp only [v0Loop, hr, hrs]

/-- Through any number of iterations of v0's manual loop (at least one), the
caller's dict ends with its `channel` key set and no other key changed. -/
theorem v0Loop_dict (resp : Nat → HttpResult) (ch : String) :
    ∀ (fuel n last : Nat) (msg : Dict),
      dictGet (v0Loop resp ch (fuel+1) n msg last).1 "channel" = some ("#" ++ ch) ∧
      ∀ k2, k2 ≠ "channel" →
        dictGet (v0Loop resp ch (fuel+1) n msg last).1 k2 = dictGet msg k2 := by
  intro fuel
  induction fuel with
  | zero =>
    intro n last msg
    cases hr : resp n with
    | transportError =>
      refine ⟨by simp [v0Loop, hr, dictGet_dictSet_same], fun k2 hk2 => ?_⟩
      simp only [v0Loop, hr]
      rw [dictGet_dictSet_other _ _ _ _ hk2]
    | resp r =>
      rcases hrs : raise_for_status r.status with _ | e
      · refine ⟨by simp [v0Loop, hr, hrs, dictGet_dictSet_same], fun k2 hk2 => ?_⟩
        simp only [v0Loop, hr, hrs]
        rw [dictGet_dictSet_other _ _ _ _ hk2]
      · refine ⟨by simp [v0Loop, hr, hrs, dictGet_dictSet_same], fun k2 hk2 => ?_⟩
        simp only [v0Loop, hr, hrs]
        rw [dictGet_dictSet_other _ _ _ _ hk2]
  | succ fuel ih =>
    intro n last msg
    cases hr : resp n with
    | transportError =>
      refine ⟨by simp [v0Loop, hr, dictGet_dictSet_same], fun k2 hk2 => ?_⟩
      simp only [v0Loop, hr]
      rw [dictGet_dictSet_other _ _ _ _ hk2]
    | resp r =>
      rcases hrs : raise_for_status r.status with _ | e
      · refine ⟨by simp [v0Loop, hr, hrs, dictGet_dictSet_same], fun k2 hk2 => ?_⟩
        simp only [v0Loop, hr, hrs]
        rw [dictGet_dictSet_other _ _ _ _ hk2]
      · obtain ⟨ihc, iho⟩ := ih (n+1) r.status (dictSet msg "channel" ("#" ++ ch))
        rw [v0Loop_step_err resp ch (fuel+1) n last msg r e hr hrs]
        refine ⟨ihc, fun k2 hk2 => ?_⟩
        rw [iho k2 hk2, dictGet_dictSet_other _ _ _ _ hk2]

/-- C9: every variant that receives the caller's payload dict writes (or
overwrites) its `channel` key - after the call, also across all retries
within it, the dict maps `channel` to `"#" ++ channel` - and no other key
of the payload is modified: shown for slack_simple_rq.py, for v0's manual
loop, and for the v3 engine's full run. -/
theorem c9_channel_write :
    ∀ (ch : String) (msg : Dict) (r : HttpResult) (resp : Nat → HttpResult) (k2 : String),
      k2 ≠ "channel" →
      (dictGet (send_msg_slack_simple ch msg r).1 "channel" = some ("#" ++ ch) ∧
        dictGet (send_msg_slack_simple ch msg r).1 k2 = dictGet msg k2) ∧
      (dictGet (send_msg_slack_v0 resp ch msg).1 "channel" = some ("#" ++ ch) ∧
        dictGet (send_msg_slack_v0 resp ch msg).1 k2 = dictGet msg k2) ∧
      (dictGet (run_v3 ch msg resp).finalState.1 "channel" = some ("#" ++ ch) ∧
        dictGet (run_v3 ch msg resp).finalState.1 k2 = dictGet msg k2) := by
  intro ch msg r resp k2 hk2
  refine ⟨?_, ?_, ?_⟩
  · have hsimple : (send_msg_slack_simple ch msg r).1 = dictSet msg "channel" ("#" ++ ch) := by
      cases r with
      | transportError => rfl
      | resp rr => rcases hrs : raise_for_status rr.status with _ | e <;>
          simp [send_msg_slack_simple, hrs]
    constructor
    · rw [hsimple]
      exact dictGet_dictSet_same _ _ _
    · rw [hsimple]
      exact dictGet_dictSet_other _ _ _ _ hk2
  · obtain ⟨hc, ho⟩ := v0Loop_dict resp ch 3 1 0 msg
    exact ⟨hc, ho k2 hk2⟩
  · obtain ⟨hc, ho⟩ := tenacityAux_v3_dict ch retry_if_SendMsgError false resp 3 1 (msg, none)
    exact ⟨hc, ho k2 hk2⟩

theorem c9_channel_write_witness :
    (dictGet (send_msg_slack_simple "learning" [("text", "t")] HttpResult.transportError).1
        "channel" = some ("#" ++ "learning") ∧
      dictGet (send_msg_slack_simple "learning" [("text", "t")] HttpResult.transportError).1
        "text" = dictGet [("text", "t")] "text") ∧
    (dictGet (send_msg_slack_v0 (fun _ => HttpResult.resp ⟨503, none, "b", "r"⟩)
        "learning" [("text", "t")]).1 "channel" = some ("#" ++ "learning") ∧
      dictGet (send_msg_slack_v0 (fun _ => HttpResult.resp ⟨503, none, "b", "r"⟩)
        "learning" [("text", "t")]).1 "text" = dictGet [("text", "t")] "text") ∧
    (dictGet (run_v3 "learning" [("text", "t")]
        (fun _ => HttpResult.resp ⟨503, none, "b", "r"⟩)).finalState.1 "channel" =
        some ("#" ++ "learning") ∧
      dictGet (run_v3 "learning" [("text", "t")]
        (fun _ => HttpResult.resp ⟨503, none, "b", "r"⟩)).finalState.1 "text" =
        dictGet [("text", "t")] "text") :=
  c9_channel_write "learning" [("text", "t")] HttpResult.transportError
    (fun _ => HttpResult.resp ⟨503, none, "b", "r"⟩) "text" (by decide)

/-- C10: in v0's manual loop, when all four attempts fail the function
sleeps the fixed `SLEEP = 1` delay once more after the final failed attempt
- the event trace ends with a sleep - and only then re-raises the last
response's HTTP error. -/
theorem c10_trailing_sleep :
    ∀ (resp : Nat → HttpResult) (ch : String) (msg : Dict),
      (∀ i, 1 ≤ i → i ≤ 4 →
        ∃ r : Response, resp i = HttpResult.resp r ∧ 400 ≤ r.status ∧ r.status < 600) →
      (send_msg_slack_v0 resp ch msg).2.1 =
        [Ev.attempt 1, Ev.sleep SLEEP, Ev.attempt 2, Ev.sleep SLEEP,
         Ev.attempt 3, Ev.sleep SLEEP, Ev.attempt 4, Ev.sleep SLEEP] ∧
      (send_msg_slack_v0 resp ch msg).2.2 = V0Out.raisedHttp (statusOf (resp 4)) ∧
      SLEEP = 1 := by
  intro resp ch msg h
  obtain ⟨hev, hout⟩ := v0_all_fail resp ch msg h
  exact ⟨hev, hout, rfl⟩

theorem c10_trailing_sleep_witness :
    (send_msg_slack_v0 (fun _ => HttpResult.resp ⟨503, none, "b", "r"⟩) "c" []).2.1 =
      [Ev.attempt 1, Ev.sleep SLEEP, Ev.attempt 2, Ev.sleep SLEEP,
       Ev.attempt 3, Ev.sleep SLEEP, Ev.attempt 4, Ev.sleep SLEEP] ∧
    (send_msg_slack_v0 (fun _ => HttpResult.resp ⟨503, none, "b", "r"⟩) "c" []).2.2 =
      V0Out.raisedHttp (statusOf ((fun _ => HttpResult.resp ⟨503, none, "b", "r"⟩) 4)) ∧
    SLEEP = 1 :=
  c10_trailing_sleep (fun _ => HttpResult.resp ⟨503, none, "b", "r"⟩) "c" []
    (fun i hi1 hi2 => ⟨⟨503, none, "b", "r"⟩, rfl, by decide, by decide⟩)
